import Mathlib

/-!
# Order service of the restaurant backend

A shallow embedding of `backend-copy/server.js`: the `orderSchema` of lines 30-46, the
five route handlers of lines 56-122, the error middleware and the catch-all of lines
125-132, together with the middleware chain of lines 10-12.

The handlers are pure functions from a request and the collection of stored orders to a
response and the new collection.  What the process reads from outside (the clock, the
identifier the driver generates, a failure of the database call) is the `Env` argument.
Behaviour of the JavaScript runtime and of the linked libraries that is not fixed by the
source and differs between releases is the `Platform` argument; every theorem holds for
every platform.

Conventions of the model:
* `req.body` is the object the body parsers produced (the empty object when the request
  has no body); a property read that finds nothing is `undefined`.
* Mongoose casts and validates in the process, before the database is called: a cast or
  validation error is raised whether or not the database is reachable.
* The collection is the list of its documents in insertion order; `_id` carries the
  unique index MongoDB puts on it.  The version key `__v` is not modelled.
* The counterexamples evaluate the handlers with `Platform.plain` on inputs (strings,
  numbers, booleans, 24-digit or 3-character ids) for which no field of the platform
  other than the wording of a message is consulted.
-/

namespace Restaurant

/-! ## JavaScript values -/

/-- A JavaScript number: `NaN`, the two infinities, or a finite value.  Every finite
double is a rational, so finite values are embedded in `ℚ`. -/
inductive JSNum where
  | nan
  | posInf
  | negInf
  | fin (q : ℚ)
  deriving DecidableEq

/-- A value of a parsed request body (`express.json()` / `express.urlencoded()`). -/
inductive JVal where
  | null
  | bool (b : Bool)
  | num (n : JSNum)
  | str (s : String)
  | arr (items : List JVal)
  | obj (fields : List (String × JVal))

/-- A parsed request body `req.body`: the properties of the object with their values. -/
abbrev JObject := List (String × JVal)

/-- Property read `body.key`; `none` is `undefined`. -/
def JObject.get (o : JObject) (key : String) : Option JVal :=
  o.lookup key

/-- JavaScript truthiness (`!v` is the negation): `undefined`, `null`, `false`, `0`,
`NaN` and `''` are falsy, everything else is truthy. -/
def truthy : Option JVal → Bool
  | none => false
  | some .null => false
  | some (.bool b) => b
  | some (.num .nan) => false
  | some (.num (.fin q)) => decide (q ≠ 0)
  | some (.num _) => true
  | some (.str s) => decide (s ≠ "")
  | some (.arr _) => true
  | some (.obj _) => true

/-- The comparison `n >= 1` on JavaScript numbers. -/
def JSNum.ge1 : JSNum → Bool
  | .fin q => decide (1 ≤ q)
  | .posInf => true
  | _ => false

/-- Whether a number is an integer (`Number.isInteger`). -/
def JSNum.isInteger : JSNum → Bool
  | .fin q => decide (q.den = 1)
  | _ => false

/-- Code points removed by `String.prototype.trim`: ECMAScript WhiteSpace and
LineTerminator. -/
def jsWhiteSpace (c : Char) : Bool :=
  let n := c.toNat
  n = 0x09 || n = 0x0A || n = 0x0B || n = 0x0C || n = 0x0D || n = 0x20 || n = 0xA0 ||
  n = 0x1680 || (0x2000 ≤ n && n ≤ 0x200A) || n = 0x2028 || n = 0x2029 || n = 0x202F ||
  n = 0x205F || n = 0x3000 || n = 0xFEFF

/-- The method `String.prototype.trim`. -/
def jsTrim (s : String) : String :=
  String.mk ((s.data.dropWhile jsWhiteSpace).reverse.dropWhile jsWhiteSpace).reverse

/-! ## Identifiers, documents, errors -/

/-- A MongoDB `ObjectId`: twelve bytes. -/
abbrev ObjectId := Fin (2 ^ 96)

/-- One lowercase hexadecimal digit. -/
def hexChar (n : Nat) : Char :=
  if n < 10 then Char.ofNat (48 + n) else Char.ofNat (87 + n)

/-- The value of a hexadecimal digit, either case. -/
def hexValue (c : Char) : Option Nat :=
  let n := c.toNat
  if 48 ≤ n ∧ n ≤ 57 then some (n - 48)
  else if 97 ≤ n ∧ n ≤ 102 then some (n - 87)
  else if 65 ≤ n ∧ n ≤ 70 then some (n - 55)
  else none

/-- Rendering `ObjectId.prototype.toHexString`, the form an identifier takes in JSON:
24 hexadecimal digits. -/
def ObjectId.toHexString (o : ObjectId) : String :=
  String.mk ((List.range 24).map fun i => hexChar (o.val / 16 ^ (23 - i) % 16))

/-- Reads a string of hexadecimal digits; `none` when a character is not one. -/
def parseHex : List Char → Option Nat
  | cs => cs.foldl (fun acc c => acc.bind fun a => (hexValue c).map fun d => a * 16 + d) (some 0)

/-- An order as stored in the collection (`orderSchema` with `timestamps: true`).
A time is a number of milliseconds; `status` is `none` when the stored value is `null`. -/
structure OrderDoc where
  _id : ObjectId
  customerName : String
  mobileNumber : String
  foodItem : String
  quantity : JSNum
  address : String
  orderDate : Nat
  status : Option String
  totalAmount : JSNum
  createdAt : Nat
  updatedAt : Nat
  deriving DecidableEq

/-- The collection of stored orders, in insertion order. -/
abbrev Store := List OrderDoc

/-- An exception raised by a call into Mongoose. -/
inductive StoreError where
  /-- A `CastError` on the `_id` of a query. -/
  | castId (value : String)
  /-- A `ValidationError` (cast or validator failure) on the listed schema paths. -/
  | validation (paths : List String)
  /-- The unique index on `_id` rejects an insert. -/
  | duplicateKey (id : ObjectId)
  /-- Any other failure of the database call (connectivity, server error). -/
  | unavailable (detail : String)
  deriving DecidableEq

/-- Outcome of casting the `status` of an update. -/
inductive StatusCast where
  /-- The update is rejected (cast or validation error). -/
  | rejected
  /-- The key is dropped from the update: the stored status stays. -/
  | omitted
  /-- The status is written as `null`. -/
  | setNull
  /-- The status is cast to this string, which the enum validator then checks. -/
  | text (s : String)

/-- Behaviour of the runtime and of the linked libraries that the source does not fix:
conversions of values outside the plain cases and the wording of error messages. -/
structure Platform where
  /-- Result of `Number(v)` for a string, an array or an object `v`. -/
  toNumber : JVal → JSNum
  /-- Mongoose String cast of a value that is no string, `null` or `undefined`;
  `none` is a `CastError`. -/
  castString : JVal → Option String
  /-- Cast (and validation of `null`) of an update `status` that is not a string. -/
  castStatus : Option JVal → StatusCast
  /-- Cast to `ObjectId` of a string of length 12. -/
  legacyObjectId : String → Option ObjectId
  /-- Function `decodeURIComponent` on a route parameter; `none` when it throws. -/
  decodeParam : String → Option String
  /-- The property `err.message` of an exception. -/
  message : StoreError → String

/-- What a request reads from outside the process. -/
structure Env where
  /-- Value of `Date.now()` when the document is constructed. -/
  now : Nat
  /-- Time the timestamps plugin records on the write. -/
  writeTime : Nat
  /-- Identifier generated for a new document. -/
  newId : ObjectId
  /-- When `some detail`, the database call of this request throws. -/
  fault : Option String

/-- A value of a response body. -/
inductive Field where
  | bool (b : Bool)
  | str (s : String)
  | num (n : Nat)
  | id (o : ObjectId)
  | order (d : OrderDoc)
  | orders (l : List OrderDoc)
  deriving DecidableEq

/-- A JSON response body: property names with their values. -/
abbrev Body := List (String × Field)

/-- What a handler sends: `res.status(status).json(body)`. -/
structure Response where
  status : Nat
  body : Body
  deriving DecidableEq

/-! ## The Order model (lines 30-48) -/

/-- The `enum` of the `status` path. -/
def statusEnum : List String :=
  ["pending", "confirmed", "preparing", "delivered", "cancelled"]

/-- Result of casting a value to the type of a schema path. -/
inductive Cast (α : Type) where
  | value (a : α)
  | nullish
  | error

/-- A path `{ type: String, trim: true }`: cast to string, then trim. -/
def castText (P : Platform) : Option JVal → Cast String
  | none => .nullish
  | some .null => .nullish
  | some (.str s) => .value (jsTrim s)
  | some v =>
    match P.castString v with
    | some s => .value (jsTrim s)
    | none => .error

/-- A path `{ type: Number }` given a number: `NaN` does not cast. -/
def castNumber : JSNum → Cast JSNum
  | .nan => .error
  | n => .value n

/-- Validator `required: true` on a String path: a non-empty string. -/
def validText : Cast String → Option String
  | .value s => if s = "" then none else some s
  | _ => none

/-- Validators `required: true, min: 1` on the `quantity` path. -/
def validQuantity : Cast JSNum → Option JSNum
  | .value n => if n.ge1 then some n else none
  | _ => none

/-- The function `Number(v)`. -/
def toNumber (P : Platform) : Option JVal → JSNum
  | none => .nan
  | some .null => .fin 0
  | some (.bool b) => if b then .fin 1 else .fin 0
  | some (.num n) => n
  | some v => P.toNumber v

/-- The schema paths that fail validation, in schema order. -/
def invalidPaths (cn mn fi : Cast String) (q : Cast JSNum) (ad : Cast String) : List String :=
  (if (validText cn).isSome then [] else ["customerName"]) ++
  (if (validText mn).isSome then [] else ["mobileNumber"]) ++
  (if (validText fi).isSome then [] else ["foodItem"]) ++
  (if (validQuantity q).isSome then [] else ["quantity"]) ++
  (if (validText ad).isSome then [] else ["address"])

/-- Construction `new Order({ customerName, mobileNumber, foodItem, quantity, address })`
followed by the validation `save()` runs before writing: the document with its defaults
(`orderDate`, `status`, `totalAmount`), its generated `_id` and its timestamps, or the
`ValidationError`. -/
def newOrder (P : Platform) (e : Env) (customerName mobileNumber foodItem : Option JVal)
    (quantity : JSNum) (address : Option JVal) : Except StoreError OrderDoc :=
  let cn := castText P customerName
  let mn := castText P mobileNumber
  let fi := castText P foodItem
  let q := castNumber quantity
  let ad := castText P address
  match validText cn, validText mn, validText fi, validQuantity q, validText ad with
  | some a, some b, some c, some n, some d =>
    .ok { _id := e.newId, customerName := a, mobileNumber := b, foodItem := c,
          quantity := n, address := d, orderDate := e.now, status := some "pending",
          totalAmount := .fin 20, createdAt := e.writeTime, updatedAt := e.writeTime }
  | _, _, _, _, _ => .error (.validation (invalidPaths cn mn fi q ad))

/-- The write of `save()`: the database call may fail, and the unique index on `_id`
rejects an identifier that is already stored. -/
def insert (e : Env) (s : Store) (d : OrderDoc) : Except StoreError Store :=
  match e.fault with
  | some detail => .error (.unavailable detail)
  | none => if s.any (fun x => x._id = d._id) then .error (.duplicateKey d._id) else .ok (s ++ [d])

/-- Cast of a route parameter to `ObjectId`: 24 hexadecimal digits; what a string of
length 12 gives depends on the driver; anything else is a `CastError` (`none`). -/
def castObjectId (P : Platform) (id : String) : Option ObjectId :=
  if id.data.length = 24 then
    match parseHex id.data with
    | some v => some ⟨v % 2 ^ 96, Nat.mod_lt _ (Nat.pos_of_ne_zero (by decide))⟩
    | none => none
  else if id.data.length = 12 then P.legacyObjectId id
  else none

/-- Lookup of a document by `_id`. -/
def findById (s : Store) (oid : ObjectId) : Option OrderDoc :=
  s.find? fun d => d._id = oid

/-! ## Route handlers (lines 51-122) -/

/-- The body of a `catch` block: `{ success: false, message, error: err.message }`. -/
def failure (P : Platform) (message : String) (err : StoreError) : Response :=
  { status := 500,
    body := [("success", .bool false), ("message", .str message), ("error", .str (P.message err))] }

/-- The 404 of the three handlers that take an id. -/
def orderNotFound : Response :=
  { status := 404, body := [("success", .bool false), ("message", .str "Order not found")] }

/-- Handler `app.post('/api/orders')` (lines 56-72). -/
def createOrder (P : Platform) (e : Env) (s : Store) (body : JObject) : Response × Store :=
  let customerName := body.get "customerName"
  let mobileNumber := body.get "mobileNumber"
  let foodItem := body.get "foodItem"
  let quantity := body.get "quantity"
  let address := body.get "address"
  if !truthy customerName || !truthy mobileNumber || !truthy foodItem || !truthy quantity
      || !truthy address then
    ({ status := 400,
       body := [("success", .bool false), ("message", .str "All fields are required")] }, s)
  else
    match newOrder P e customerName mobileNumber foodItem (toNumber P quantity) address with
    | .error err => (failure P "Failed to place order" err, s)
    | .ok order =>
      match insert e s order with
      | .error err => (failure P "Failed to place order" err, s)
      | .ok s' =>
        ({ status := 201,
           body := [("success", .bool true), ("message", .str "Order placed successfully!"),
                    ("orderId", .id order._id), ("order", .order order)] }, s')

/-- The order `sort({ createdAt: -1 })`: later creation time first. -/
def newestFirst (a b : OrderDoc) : Prop :=
  b.createdAt ≤ a.createdAt

instance : DecidableRel newestFirst :=
  fun a b => inferInstanceAs (Decidable (b.createdAt ≤ a.createdAt))

instance : IsTotal OrderDoc newestFirst :=
  ⟨fun a b => Nat.le_total b.createdAt a.createdAt⟩

instance : IsTrans OrderDoc newestFirst :=
  ⟨fun _ _ _ hab hbc => Nat.le_trans hbc hab⟩

/-- Handler `app.get('/api/orders')` (lines 75-83). -/
def listOrders (P : Platform) (e : Env) (s : Store) : Response × Store :=
  match e.fault with
  | some detail => (failure P "Failed to fetch orders" (.unavailable detail), s)
  | none =>
    let orders := s.insertionSort newestFirst
    ({ status := 200,
       body := [("success", .bool true), ("count", .num orders.length),
                ("orders", .orders orders)] }, s)

/-- Handler `app.get('/api/orders/:id')` (lines 86-95). -/
def getOrder (P : Platform) (e : Env) (s : Store) (id : String) : Response × Store :=
  match castObjectId P id with
  | none => (failure P "Failed to fetch order" (.castId id), s)
  | some oid =>
    match e.fault with
    | some detail => (failure P "Failed to fetch order" (.unavailable detail), s)
    | none =>
      match findById s oid with
      | none => (orderNotFound, s)
      | some order => ({ status := 200, body := [("success", .bool true), ("order", .order order)] }, s)

/-- Cast of the update `{ status }`: a string is kept as it is. -/
def castStatus (P : Platform) : Option JVal → StatusCast
  | some (.str t) => .text t
  | v => P.castStatus v

/-- The change `{ status }` makes to the stored status once cast and validated with
`runValidators: true`: `none` leaves it, `some v` writes `v`; or the error. -/
def statusUpdate (P : Platform) (status : Option JVal) :
    Except StoreError (Option (Option String)) :=
  match castStatus P status with
  | .rejected => .error (.validation ["status"])
  | .omitted => .ok none
  | .setNull => .ok (some none)
  | .text t => if t ∈ statusEnum then .ok (some (some t)) else .error (.validation ["status"])

/-- Replaces the first document whose `_id` is `oid`. -/
def replaceById (oid : ObjectId) (d : OrderDoc) : Store → Store
  | [] => []
  | x :: xs => if x._id = oid then d :: xs else x :: replaceById oid d xs

/-- Handler `app.put('/api/orders/:id')` (lines 98-110): the query and the update are
cast and validated before the database is called. -/
def updateOrder (P : Platform) (e : Env) (s : Store) (id : String) (body : JObject) :
    Response × Store :=
  let status := body.get "status"
  match castObjectId P id with
  | none => (failure P "Failed to update order" (.castId id), s)
  | some oid =>
    match statusUpdate P status with
    | .error err => (failure P "Failed to update order" err, s)
    | .ok change =>
      match e.fault with
      | some detail => (failure P "Failed to update order" (.unavailable detail), s)
      | none =>
        match findById s oid with
        | none => (orderNotFound, s)
        | some d =>
          let order : OrderDoc :=
            { d with status := change.getD d.status, updatedAt := e.writeTime }
          ({ status := 200,
             body := [("success", .bool true), ("message", .str "Order updated successfully"),
                      ("order", .order order)] }, replaceById oid order s)

/-- Handler `app.delete('/api/orders/:id')` (lines 113-122). -/
def deleteOrder (P : Platform) (e : Env) (s : Store) (id : String) : Response × Store :=
  match castObjectId P id with
  | none => (failure P "Failed to delete order" (.castId id), s)
  | some oid =>
    match e.fault with
    | some detail => (failure P "Failed to delete order" (.unavailable detail), s)
    | none =>
      match findById s oid with
      | none => (orderNotFound, s)
      | some _ =>
        ({ status := 200,
           body := [("success", .bool true), ("message", .str "Order deleted successfully")] },
         s.eraseP fun d => d._id = oid)

/-! ## The application (lines 10-12, 51-53, 125-132) -/

/-- The request method. -/
inductive Method where
  | GET | HEAD | POST | PUT | DELETE | OPTIONS | OTHER
  deriving DecidableEq

/-- A request as the application receives it: the method, the segments of the path
after the leading slash (`/` is `[""]`, `/api/orders/` is `["api", "orders", ""]`), and
the outcome of the body parsers: the parsed object, or the message of their error. -/
structure Request where
  method : Method
  path : List String
  body : Except String JObject

/-- What goes on the wire: the status and the JSON body, if one is sent. -/
structure Sent where
  status : Nat
  body : Option Body
  deriving DecidableEq

/-- ASCII lower case: route matching ignores case. -/
def lower (s : String) : String :=
  String.mk (s.data.map Char.toLower)

/-- A route pattern of the application. -/
inductive Route where
  | root
  | orders
  | order (raw : String)
  | unmatched

/-- The pattern a path matches: `/`, `/api/orders` or `/api/orders/:id`, each with an
optional trailing slash, the parameter being non-empty. -/
def route : List String → Route
  | [""] => .root
  | [a, o] => if lower a = "api" ∧ lower o = "orders" then .orders else .unmatched
  | [a, o, x] =>
    if lower a = "api" ∧ lower o = "orders" then (if x = "" then .orders else .order x)
    else .unmatched
  | [a, o, x, y] =>
    if lower a = "api" ∧ lower o = "orders" ∧ x ≠ "" ∧ y = "" then .order x else .unmatched
  | _ => .unmatched

/-- The handler `app.get('/')` (lines 51-53). -/
def banner : Response :=
  { status := 200, body := [("message", .str "Restaurant Backend API is running!")] }

/-- The error middleware (lines 125-128). -/
def errorHandler (detail : String) : Response :=
  { status := 500,
    body := [("success", .bool false), ("message", .str "Something went wrong!"),
             ("error", .str detail)] }

/-- The catch-all (lines 130-132). -/
def routeNotFound : Response :=
  { status := 404, body := [("success", .bool false), ("message", .str "Route not found")] }

/-- The router: the first route whose pattern and method match; a parameter that does
not decode goes to the error middleware; a `HEAD` request is served by the `GET` route. -/
def dispatch (P : Platform) (e : Env) (s : Store) (m : Method) (path : List String)
    (body : JObject) : Response × Store :=
  match route path with
  | .root =>
    match m with
    | .GET | .HEAD => (banner, s)
    | _ => (routeNotFound, s)
  | .orders =>
    match m with
    | .POST => createOrder P e s body
    | .GET | .HEAD => listOrders P e s
    | _ => (routeNotFound, s)
  | .order raw =>
    match P.decodeParam raw with
    | none => (errorHandler ("Failed to decode param '" ++ raw ++ "'"), s)
    | some id =>
      match m with
      | .GET | .HEAD => getOrder P e s id
      | .PUT => updateOrder P e s id body
      | .DELETE => deleteOrder P e s id
      | _ => (routeNotFound, s)
  | .unmatched => (routeNotFound, s)

/-- The application: `cors()` answers every `OPTIONS` request with an empty 204; an
error of the body parsers goes to the error middleware; otherwise the router runs.
The body of the answer to a `HEAD` request is not sent. -/
def handle (P : Platform) (e : Env) (s : Store) (req : Request) : Sent × Store :=
  match req.method with
  | .OPTIONS => ({ status := 204, body := none }, s)
  | m =>
    let out : Response × Store :=
      match req.body with
      | .error detail => (errorHandler detail, s)
      | .ok body => dispatch P e s m req.path body
    ({ status := out.1.status, body := if m = .HEAD then none else some out.1.body }, out.2)

/-- Whether the status a request would write is a string: false exactly for a `PUT` whose
parsed body has a `status` that is `null`, absent or of another type. -/
def Request.textStatus (req : Request) : Bool :=
  match req.method, req.body with
  | .PUT, .ok body =>
    match body.get "status" with
    | some (.str _) => true
    | _ => false
  | _, _ => true

/-- The stores the service can be in: the empty collection, and what any request leaves
behind.  The flag records whether every request of the sequence had `textStatus`. -/
inductive Reachable (P : Platform) : Bool → Store → Prop where
  | empty : Reachable P true []
  | step {b : Bool} {s : Store} (e : Env) (req : Request) :
    Reachable P b s → Reachable P (b && req.textStatus) (handle P e s req).2

/-! ## Data used in examples -/

/-- A platform that refuses every value outside the plain cases. -/
def Platform.plain : Platform :=
  { toNumber := fun _ => .nan
    castString := fun _ => none
    castStatus := fun _ => .rejected
    legacyObjectId := fun _ => none
    decodeParam := fun raw => some raw
    message := fun _ => "error" }

/-- An environment whose database call succeeds. -/
def Env.sample : Env :=
  { now := 1000, writeTime := 1001, newId := 7, fault := none }

/-- The body of scenario 7 of the specification. -/
def ashaBody : JObject :=
  [("customerName", .str "Asha"), ("mobileNumber", .str "555"), ("foodItem", .str "Pizza"),
   ("quantity", .num (.fin 2)), ("address", .str "12 Main St")]

/-- The order that body creates in `Env.sample`. -/
def ashaOrder : OrderDoc :=
  { _id := 7, customerName := "Asha", mobileNumber := "555", foodItem := "Pizza",
    quantity := .fin 2, address := "12 Main St", orderDate := 1000, status := some "pending",
    totalAmount := .fin 20, createdAt := 1001, updatedAt := 1001 }

/-- The identifier of `ashaOrder` as a route parameter. -/
def ashaId : String := "000000000000000000000007"

/-! ## The wording of the specification -/

/-- The five required properties of a create request. -/
def requiredFields : List String :=
  ["customerName", "mobileNumber", "foodItem", "quantity", "address"]

/-- A field that is "absent or empty as received" in the words of the specification:
missing, `null`, the empty string, or, for the quantity, zero. -/
def absentOrEmpty (key : String) : Option JVal → Bool
  | none => true
  | some .null => true
  | some (.str t) => decide (t = "")
  | some (.num (.fin q)) => decide (key = "quantity" ∧ q = 0)
  | some _ => false

/-- A create body in which `customerName` is the boolean `false`. -/
def falseNameBody : JObject :=
  [("customerName", .bool false), ("mobileNumber", .str "555"), ("foodItem", .str "Pizza"),
   ("quantity", .num (.fin 2)), ("address", .str "12 Main St")]

/-- An update body with a status outside the enum. -/
def shippedBody : JObject :=
  [("status", .str "shipped")]

/-- The order `d` with the status `t`, written at `time`. -/
def OrderDoc.withStatus (d : OrderDoc) (t : String) (time : Nat) : OrderDoc :=
  { d with status := some t, updatedAt := time }

/-- An update body with a status of the enum and other properties. -/
def confirmedBody : JObject :=
  [("customerName", .str "Mallory"), ("status", .str "confirmed"), ("totalAmount", .num (.fin 0)),
   ("_id", .str "00000000000000000000000a")]

/-- A second stored order. -/
def raviOrder : OrderDoc :=
  { _id := 9, customerName := "Ravi", mobileNumber := "777", foodItem := "Dosa",
    quantity := .fin 1, address := "4 Lake Rd", orderDate := 2000, status := some "preparing",
    totalAmount := .fin 20, createdAt := 2001, updatedAt := 2001 }

/-- The status of a stored order is one of the enum. -/
def OrderDoc.StatusOk (d : OrderDoc) : Prop :=
  ∃ t ∈ statusEnum, d.status = some t

/-- A stored text: non-empty and without leading or trailing white space, so not made of
white space only. -/
def Trimmed (t : String) : Prop :=
  t ≠ "" ∧ jsTrim t = t

/-- The constraints of the data model that every stored order meets: a quantity at least
1 and trimmed, non-empty texts. -/
def OrderDoc.Valid (d : OrderDoc) : Prop :=
  d.quantity.ge1 = true ∧ Trimmed d.customerName ∧ Trimmed d.mobileNumber ∧
    Trimmed d.foodItem ∧ Trimmed d.address

/-- The invariant of the collection: distinct ids and valid orders. -/
def StoreInv (s : Store) : Prop :=
  (s.map fun d => d._id).Nodup ∧ ∀ d ∈ s, d.Valid

/-- A response body with the stable shape: a boolean `success`, and on a 500 a `message`
and an `error` string. -/
def Shaped (status : Nat) (body : Body) : Prop :=
  (∃ b, body.lookup "success" = some (.bool b)) ∧
    (status = 500 →
      ∃ m detail, body.lookup "message" = some (.str m) ∧ body.lookup "error" = some (.str detail))

/-- The number 1.5. -/
def threeHalves : ℚ :=
  ⟨3, 2, by decide, by decide⟩

/-- A create body with the quantity 1.5. -/
def halfBody : JObject :=
  [("customerName", .str "Asha"), ("mobileNumber", .str "555"), ("foodItem", .str "Pizza"),
   ("quantity", .num (.fin threeHalves)), ("address", .str "12 Main St")]

/-- The order that body creates in `Env.sample`. -/
def halfOrder : OrderDoc :=
  { ashaOrder with quantity := .fin threeHalves }

/-- The request `POST /api/orders` with a body. -/
def postOrders (body : JObject) : Request :=
  { method := .POST, path := ["api", "orders"], body := .ok body }

/-- The request `GET /api/orders/:id`. -/
def getOrderRequest (id : String) : Request :=
  { method := .GET, path := ["api", "orders", id], body := .ok [] }

/-- The request `PUT /api/orders/:id` with a body. -/
def putOrder (id : String) (body : JObject) : Request :=
  { method := .PUT, path := ["api", "orders", id], body := .ok body }

/-- The request `GET /`. -/
def getRoot : Request :=
  { method := .GET, path := [""], body := .ok [] }

/-! ## Lemmas on the model -/

theorem jsTrim_empty : jsTrim "" = "" := by decide

theorem ne_empty_of_jsTrim {t : String} (h : jsTrim t ≠ "") : t ≠ "" := by
  intro h0
  exact h (h0 ▸ jsTrim_empty)

theorem truthy_of_jsTrim {t : String} (h : jsTrim t ≠ "") : truthy (some (.str t)) = true := by
  simp [truthy, ne_empty_of_jsTrim h]

theorem truthy_of_ge1 {q : JSNum} (h : q.ge1 = true) : truthy (some (.num q)) = true := by
  cases q with
  | nan => simp [JSNum.ge1] at h
  | posInf => simp [truthy]
  | negInf => simp [JSNum.ge1] at h
  | fin r =>
    simp only [JSNum.ge1, decide_eq_true_eq] at h
    have : r ≠ 0 := by
      intro h0
      rw [h0] at h
      exact absurd h (by norm_num)
    simp [truthy, this]

theorem castNumber_of_ge1 {q : JSNum} (h : q.ge1 = true) :
    validQuantity (castNumber q) = some q := by
  cases q <;> simp_all [JSNum.ge1, castNumber, validQuantity]

theorem validText_str (P : Platform) {t : String} (h : jsTrim t ≠ "") :
    validText (castText P (some (.str t))) = some (jsTrim t) := by
  simp [castText, validText, h]

theorem threeHalves_eq : threeHalves = 3 / 2 := by
  rw [threeHalves, Rat.mk'_eq_divInt]
  norm_num [Rat.divInt_eq_div]

/-- The status of a create response is 400 exactly on the guard of line 59. -/
theorem createOrder_status_400 (P : Platform) (e : Env) (s : Store) (body : JObject) :
    (createOrder P e s body).1.status = 400 ↔
      (!truthy (body.get "customerName") || !truthy (body.get "mobileNumber") ||
        !truthy (body.get "foodItem") || !truthy (body.get "quantity") ||
        !truthy (body.get "address")) = true := by
  unfold createOrder
  simp only
  split
  · simp_all
  · rename_i h
    simp only [h]
    split
    · simp [failure]
    · split <;> simp [failure]

/-! ## Create -/

/-- C1, counterexample to the claim as stated.  A create body whose `customerName` is the boolean `false`
is answered 400, although none of its five fields is missing, `null`, an empty string or
a zero quantity. -/
theorem createOrder_false_name_rejected :
    (createOrder Platform.plain Env.sample [] falseNameBody).1.status = 400 ∧
      (requiredFields.any fun k => absentOrEmpty k (falseNameBody.get k)) = false := by
  decide

/-- C1, amended.  For every request body and every store, `createOrder` answers 400
exactly when one of `customerName`, `mobileNumber`, `foodItem`, `quantity`, `address` is
falsy as received (`undefined`, `null`, `false`, `0`, `NaN` or `''`); the answer is then
`{ success: false, message: 'All fields are required' }` and the store is unchanged. -/
theorem createOrder_400_iff_falsy (P : Platform) (e : Env) (s : Store) (body : JObject) :
    ((createOrder P e s body).1.status = 400 ↔
        ∃ k ∈ requiredFields, truthy (body.get k) = false) ∧
      ((createOrder P e s body).1.status = 400 →
        (createOrder P e s body).1.body =
            [("success", .bool false), ("message", .str "All fields are required")] ∧
          (createOrder P e s body).2 = s) := by
  refine ⟨?_, ?_⟩
  · rw [createOrder_status_400]
    simp [requiredFields, or_assoc]
  · intro h
    rw [createOrder_status_400] at h
    unfold createOrder
    simp only [h]
    simp

/-- C2, counterexample to the claim as stated.  The body of scenario 7 is valid, yet on
a store that already holds the identifier generated for the new order the answer is 500
and nothing is stored. -/
theorem createOrder_duplicate_id_500 :
    Env.sample.fault = none ∧ Env.sample.newId = ashaOrder._id ∧
      (createOrder Platform.plain Env.sample [ashaOrder] ashaBody).1.status = 500 ∧
      (createOrder Platform.plain Env.sample [ashaOrder] ashaBody).2 = [ashaOrder] := by
  decide

/-- C2, amended.  For a body whose four text fields are strings that are non-empty after
trimming and whose quantity is a number at least 1, whatever else the body holds, when the
database call does not throw: if the identifier generated for the new order is not yet
stored, `createOrder` answers 201 with the new order, whose status is `pending`, whose
`totalAmount` is 20, whose identifier renders to a non-empty string and whose five fields
are the trimmed texts and the quantity, and appends it to the store; if that identifier is
already stored, it answers 500 and leaves the store unchanged; and whenever it answers
201, the identifier of the new order differs from that of every order already stored. -/
theorem createOrder_valid (P : Platform) (e : Env) (s : Store) (body : JObject)
    (cn mn fi ad : String) (q : JSNum)
    (hcn : body.get "customerName" = some (.str cn))
    (hmn : body.get "mobileNumber" = some (.str mn))
    (hfi : body.get "foodItem" = some (.str fi))
    (hq : body.get "quantity" = some (.num q))
    (had : body.get "address" = some (.str ad))
    (tcn : jsTrim cn ≠ "") (tmn : jsTrim mn ≠ "") (tfi : jsTrim fi ≠ "")
    (tq : q.ge1 = true) (tad : jsTrim ad ≠ "")
    (hup : e.fault = none) :
    ∃ order : OrderDoc,
      order.status = some "pending" ∧ order.totalAmount = .fin 20 ∧
        order._id.toHexString ≠ "" ∧
        order.customerName = jsTrim cn ∧ order.mobileNumber = jsTrim mn ∧
        order.foodItem = jsTrim fi ∧ order.quantity = q ∧ order.address = jsTrim ad ∧
        ((∀ d ∈ s, d._id ≠ e.newId) →
          createOrder P e s body =
            ({ status := 201,
               body := [("success", .bool true), ("message", .str "Order placed successfully!"),
                        ("orderId", .id order._id), ("order", .order order)] }, s ++ [order])) ∧
        ((∃ d ∈ s, d._id = e.newId) →
          createOrder P e s body =
            ({ status := 500,
               body := [("success", .bool false), ("message", .str "Failed to place order"),
                        ("error", .str (P.message (.duplicateKey e.newId)))] }, s)) ∧
        ((createOrder P e s body).1.status = 201 → ∀ d ∈ s, d._id ≠ order._id) := by
  have hnew : newOrder P e (some (.str cn)) (some (.str mn)) (some (.str fi)) q
      (some (.str ad)) =
      .ok { _id := e.newId, customerName := jsTrim cn, mobileNumber := jsTrim mn,
            foodItem := jsTrim fi, quantity := q, address := jsTrim ad, orderDate := e.now,
            status := some "pending", totalAmount := .fin 20, createdAt := e.writeTime,
            updatedAt := e.writeTime } := by
    simp only [newOrder, validText_str P tcn, validText_str P tmn, validText_str P tfi,
      validText_str P tad, castNumber_of_ge1 tq]
  have hrun : createOrder P e s body =
      match newOrder P e (some (.str cn)) (some (.str mn)) (some (.str fi)) q
          (some (.str ad)) with
      | .error err => (failure P "Failed to place order" err, s)
      | .ok order =>
        match insert e s order with
        | .error err => (failure P "Failed to place order" err, s)
        | .ok s' =>
          ({ status := 201,
             body := [("success", .bool true), ("message", .str "Order placed successfully!"),
                      ("orderId", .id order._id), ("order", .order order)] }, s') := by
    unfold createOrder
    simp only [hcn, hmn, hfi, hq, had, truthy_of_jsTrim tcn, truthy_of_jsTrim tmn,
      truthy_of_jsTrim tfi, truthy_of_ge1 tq, truthy_of_jsTrim tad, toNumber]
    simp
  rw [hnew] at hrun
  simp only at hrun
  have hfree : (∀ d ∈ s, d._id ≠ e.newId) →
      (s.any fun x => decide (x._id = e.newId)) = false := by
    intro hfresh
    rw [List.any_eq_false]
    intro d hd
    simpa using hfresh d hd
  have hdup : (∃ d ∈ s, d._id = e.newId) →
      (s.any fun x => decide (x._id = e.newId)) = true := by
    rintro ⟨d, hd, hde⟩
    exact List.any_eq_true.2 ⟨d, hd, by simpa using hde⟩
  refine ⟨{ _id := e.newId, customerName := jsTrim cn, mobileNumber := jsTrim mn,
            foodItem := jsTrim fi, quantity := q, address := jsTrim ad, orderDate := e.now,
            status := some "pending", totalAmount := .fin 20, createdAt := e.writeTime,
            updatedAt := e.writeTime }, rfl, rfl, ?_, rfl, rfl, rfl, rfl, rfl, ?_, ?_, ?_⟩
  · intro h
    have := congrArg String.length h
    simp [ObjectId.toHexString, String.length] at this
  · intro hfresh
    rw [hrun]
    simp [insert, hup, hfree hfresh]
  · intro hex
    rw [hrun]
    simp [insert, hup, hdup hex, failure]
  · intro h201 d hd hde
    rw [hrun] at h201
    simp [insert, hup, hdup ⟨d, hd, hde⟩, failure] at h201

theorem createOrder_valid_witness :
    ∃ order : OrderDoc,
      order.status = some "pending" ∧ order.totalAmount = .fin 20 ∧
        order._id.toHexString ≠ "" ∧
        order.customerName = jsTrim "Asha" ∧ order.mobileNumber = jsTrim "555" ∧
        order.foodItem = jsTrim "Pizza" ∧ order.quantity = .fin 2 ∧
        order.address = jsTrim "12 Main St" ∧
        ((∀ d ∈ [raviOrder], d._id ≠ Env.sample.newId) →
          createOrder Platform.plain Env.sample [raviOrder] ashaBody =
            ({ status := 201,
               body := [("success", .bool true), ("message", .str "Order placed successfully!"),
                        ("orderId", .id order._id), ("order", .order order)] },
              [raviOrder] ++ [order])) ∧
        ((∃ d ∈ [raviOrder], d._id = Env.sample.newId) →
          createOrder Platform.plain Env.sample [raviOrder] ashaBody =
            ({ status := 500,
               body := [("success", .bool false), ("message", .str "Failed to place order"),
                        ("error", .str (Platform.plain.message
                          (.duplicateKey Env.sample.newId)))] }, [raviOrder])) ∧
        ((createOrder Platform.plain Env.sample [raviOrder] ashaBody).1.status = 201 →
          ∀ d ∈ [raviOrder], d._id ≠ order._id) :=
  createOrder_valid Platform.plain Env.sample [raviOrder] ashaBody "Asha" "555" "Pizza"
    "12 Main St" (.fin 2) rfl rfl rfl rfl rfl (by decide) (by decide) (by decide) (by decide)
    (by decide) rfl

/-! ## Lookup and replacement -/

theorem findById_some {s : Store} {oid : ObjectId} {d : OrderDoc}
    (h : findById s oid = some d) : d ∈ s ∧ d._id = oid := by
  unfold findById at h
  exact ⟨List.mem_of_find?_eq_some h, by simpa using List.find?_some h⟩

theorem findById_none {s : Store} {oid : ObjectId} :
    findById s oid = none ↔ ∀ d ∈ s, d._id ≠ oid := by
  simp [findById]

theorem findById_split {s : Store} {oid : ObjectId} {d : OrderDoc}
    (h : findById s oid = some d) (d' : OrderDoc) :
    ∃ pre post, s = pre ++ d :: post ∧ (∀ x ∈ pre, x._id ≠ oid) ∧
      replaceById oid d' s = pre ++ d' :: post ∧
      (s.eraseP fun x => x._id = oid) = pre ++ post := by
  induction s with
  | nil => simp [findById] at h
  | cons x xs ih =>
    by_cases hx : x._id = oid
    · have hd : x = d := by simpa [findById, List.find?, hx] using h
      subst hd
      exact ⟨[], xs, rfl, by simp, by simp [replaceById, hx], by simp [List.eraseP_cons, hx]⟩
    · have h' : findById xs oid = some d := by simpa [findById, List.find?, hx] using h
      obtain ⟨pre, post, h1, h2, h3, h4⟩ := ih h'
      refine ⟨x :: pre, post, by simp [h1], ?_, by simp [replaceById, hx, h3],
        by simp [List.eraseP_cons, hx, h4]⟩
      intro y hy
      rcases List.mem_cons.1 hy with rfl | hy
      · exact hx
      · exact h2 y hy

theorem findById_append_cons {pre post : Store} {oid : ObjectId} {d : OrderDoc}
    (hpre : ∀ x ∈ pre, x._id ≠ oid) (hd : d._id = oid) :
    findById (pre ++ d :: post) oid = some d := by
  induction pre with
  | nil => simp [findById, List.find?, hd]
  | cons x xs ih =>
    have hx : x._id ≠ oid := hpre x (List.mem_cons_self _ _)
    have := ih fun y hy => hpre y (List.mem_cons_of_mem _ hy)
    simpa [findById, List.find?, hx] using this

theorem statusUpdate_enum (P : Platform) {t : String} (h : t ∈ statusEnum) :
    statusUpdate P (some (.str t)) = .ok (some (some t)) := by
  simp [statusUpdate, castStatus, h]

theorem statusUpdate_not_enum (P : Platform) {t : String} (h : t ∉ statusEnum) :
    statusUpdate P (some (.str t)) = .error (.validation ["status"]) := by
  simp [statusUpdate, castStatus, h]

/-! ## Update with a status outside the enum -/

/-- C3, counterexample to the claim as stated.  A PUT on a stored order with the status `shipped` is
answered 500, not 400. -/
theorem updateOrder_invalid_status_500 :
    (updateOrder Platform.plain Env.sample [ashaOrder] ashaId shippedBody).1.status = 500 ∧
      findById [ashaOrder] 7 = some ashaOrder ∧ "shipped" ∉ statusEnum := by
  decide

/-- C3, amended.  For every id of a stored order and every status string outside
`pending`, `confirmed`, `preparing`, `delivered`, `cancelled`, `updateOrderStatus` fails
with the validation error of the store, which the handler answers with HTTP 500 and
`{ success: false, message: 'Failed to update order', error }`; the store, and with it
the status of the stored order, is unchanged. -/
theorem updateOrder_invalid_status (P : Platform) (e : Env) (s : Store) (id : String)
    (oid : ObjectId) (d : OrderDoc) (body : JObject) (t : String)
    (hid : castObjectId P id = some oid) (hd : findById s oid = some d)
    (hbody : body.get "status" = some (.str t)) (ht : t ∉ statusEnum) :
    updateOrder P e s id body =
        ({ status := 500,
           body := [("success", .bool false), ("message", .str "Failed to update order"),
                    ("error", .str (P.message (.validation ["status"])))] }, s) ∧
      findById (updateOrder P e s id body).2 oid = some d := by
  have h : updateOrder P e s id body =
      ({ status := 500,
         body := [("success", .bool false), ("message", .str "Failed to update order"),
                  ("error", .str (P.message (.validation ["status"])))] }, s) := by
    simp [updateOrder, hid, hbody, statusUpdate_not_enum P ht, failure]
  exact ⟨h, by rw [h]; exact hd⟩

theorem updateOrder_invalid_status_witness :
    updateOrder Platform.plain Env.sample [ashaOrder] ashaId shippedBody =
        ({ status := 500,
           body := [("success", .bool false), ("message", .str "Failed to update order"),
                    ("error", .str (Platform.plain.message (.validation ["status"])))] },
          [ashaOrder]) ∧
      findById (updateOrder Platform.plain Env.sample [ashaOrder] ashaId shippedBody).2 7 =
        some ashaOrder :=
  updateOrder_invalid_status Platform.plain Env.sample [ashaOrder] ashaId 7 ashaOrder
    shippedBody "shipped" (by decide) (by decide) rfl (by decide)

/-! ## Lookup with a malformed id -/

/-- C4, counterexample to the claim as stated.  A GET with the id `abc`, which does not cast to an
`ObjectId`, is answered 500, while a well-formed id that matches no order is answered
404. -/
theorem getOrder_malformed_id_500 :
    castObjectId Platform.plain "abc" = none ∧
      (getOrder Platform.plain Env.sample [] "abc").1.status = 500 ∧
      (getOrder Platform.plain Env.sample [] ashaId).1.status = 404 := by
  decide

/-- C4, amended.  For every id string that does not cast to an `ObjectId`, `getOrder`
answers HTTP 500 with `{ success: false, message: 'Failed to fetch order', error }`, the
error being the message of the cast error, and leaves the store unchanged; it does not
answer 404 as it does for a well-formed id that matches no order. -/
theorem getOrder_malformed_id (P : Platform) (e : Env) (s : Store) (id : String)
    (hid : castObjectId P id = none) :
    getOrder P e s id =
      ({ status := 500,
         body := [("success", .bool false), ("message", .str "Failed to fetch order"),
                  ("error", .str (P.message (.castId id)))] }, s) := by
  simp [getOrder, hid, failure]

theorem getOrder_malformed_id_witness :
    getOrder Platform.plain Env.sample [ashaOrder] "abc" =
      ({ status := 500,
         body := [("success", .bool false), ("message", .str "Failed to fetch order"),
                  ("error", .str (Platform.plain.message (.castId "abc")))] }, [ashaOrder]) :=
  getOrder_malformed_id Platform.plain Env.sample [ashaOrder] "abc" (by decide)

/-! ## Update with a status of the enum -/

/-- C5.  For every id of a stored order `d`, every status `t` of the enum and every
body that carries `t` as its status, whatever else it carries, when the database call
succeeds `updateOrderStatus` answers 200 with the order `d` in which only `status` (now
`t`) and `updatedAt` differ; that order is what the store then holds under the id and what
`getOrder` returns; it takes the place of `d` in the store, and every other stored order
is unchanged. -/
theorem updateOrder_valid_status (P : Platform) (e e' : Env) (s : Store) (id : String)
    (oid : ObjectId) (d : OrderDoc) (body : JObject) (t : String)
    (hid : castObjectId P id = some oid) (hd : findById s oid = some d)
    (hbody : body.get "status" = some (.str t)) (ht : t ∈ statusEnum)
    (hup : e.fault = none) (hup' : e'.fault = none) :
    (updateOrder P e s id body).1 =
        { status := 200,
          body := [("success", .bool true), ("message", .str "Order updated successfully"),
                   ("order", .order (d.withStatus t e.writeTime))] } ∧
      findById (updateOrder P e s id body).2 oid = some (d.withStatus t e.writeTime) ∧
      (getOrder P e' (updateOrder P e s id body).2 id).1 =
        { status := 200,
          body := [("success", .bool true), ("order", .order (d.withStatus t e.writeTime))] } ∧
      (d.withStatus t e.writeTime).status = some t ∧
      (d.withStatus t e.writeTime)._id = d._id ∧
      (d.withStatus t e.writeTime).customerName = d.customerName ∧
      (d.withStatus t e.writeTime).mobileNumber = d.mobileNumber ∧
      (d.withStatus t e.writeTime).foodItem = d.foodItem ∧
      (d.withStatus t e.writeTime).quantity = d.quantity ∧
      (d.withStatus t e.writeTime).address = d.address ∧
      (d.withStatus t e.writeTime).orderDate = d.orderDate ∧
      (d.withStatus t e.writeTime).totalAmount = d.totalAmount ∧
      (d.withStatus t e.writeTime).createdAt = d.createdAt ∧
      ∃ pre post, s = pre ++ d :: post ∧ (∀ x ∈ pre, x._id ≠ oid) ∧
        (updateOrder P e s id body).2 = pre ++ d.withStatus t e.writeTime :: post := by
  have h : updateOrder P e s id body =
      ({ status := 200,
         body := [("success", .bool true), ("message", .str "Order updated successfully"),
                  ("order", .order (d.withStatus t e.writeTime))] },
        replaceById oid (d.withStatus t e.writeTime) s) := by
    simp [updateOrder, hid, hbody, statusUpdate_enum P ht, hup, hd, OrderDoc.withStatus]
  obtain ⟨pre, post, h1, h2, h3, -⟩ := findById_split hd (d.withStatus t e.writeTime)
  have hoid : (d.withStatus t e.writeTime)._id = oid := (findById_some hd).2
  have hfind : findById (updateOrder P e s id body).2 oid = some (d.withStatus t e.writeTime) := by
    rw [h, h3]
    exact findById_append_cons h2 hoid
  refine ⟨by rw [h], hfind, ?_, rfl, rfl, rfl, rfl, rfl, rfl, rfl, rfl, rfl, rfl,
    pre, post, h1, h2, by rw [h, h3]⟩
  simp [getOrder, hid, hup', hfind]

theorem updateOrder_valid_status_witness :
    (updateOrder Platform.plain Env.sample [raviOrder, ashaOrder] ashaId confirmedBody).1 =
        { status := 200,
          body := [("success", .bool true), ("message", .str "Order updated successfully"),
                   ("order", .order (ashaOrder.withStatus "confirmed" Env.sample.writeTime))] } ∧
      findById (updateOrder Platform.plain Env.sample [raviOrder, ashaOrder] ashaId
        confirmedBody).2 7 = some (ashaOrder.withStatus "confirmed" Env.sample.writeTime) ∧
      (getOrder Platform.plain Env.sample (updateOrder Platform.plain Env.sample
        [raviOrder, ashaOrder] ashaId confirmedBody).2 ashaId).1 =
        { status := 200,
          body := [("success", .bool true),
                   ("order", .order (ashaOrder.withStatus "confirmed" Env.sample.writeTime))] } ∧
      (ashaOrder.withStatus "confirmed" Env.sample.writeTime).status = some "confirmed" ∧
      (ashaOrder.withStatus "confirmed" Env.sample.writeTime)._id = ashaOrder._id ∧
      (ashaOrder.withStatus "confirmed" Env.sample.writeTime).customerName =
        ashaOrder.customerName ∧
      (ashaOrder.withStatus "confirmed" Env.sample.writeTime).mobileNumber =
        ashaOrder.mobileNumber ∧
      (ashaOrder.withStatus "confirmed" Env.sample.writeTime).foodItem = ashaOrder.foodItem ∧
      (ashaOrder.withStatus "confirmed" Env.sample.writeTime).quantity = ashaOrder.quantity ∧
      (ashaOrder.withStatus "confirmed" Env.sample.writeTime).address = ashaOrder.address ∧
      (ashaOrder.withStatus "confirmed" Env.sample.writeTime).orderDate = ashaOrder.orderDate ∧
      (ashaOrder.withStatus "confirmed" Env.sample.writeTime).totalAmount =
        ashaOrder.totalAmount ∧
      (ashaOrder.withStatus "confirmed" Env.sample.writeTime).createdAt = ashaOrder.createdAt ∧
      ∃ pre post, [raviOrder, ashaOrder] = pre ++ ashaOrder :: post ∧
        (∀ x ∈ pre, x._id ≠ 7) ∧
        (updateOrder Platform.plain Env.sample [raviOrder, ashaOrder] ashaId confirmedBody).2 =
          pre ++ ashaOrder.withStatus "confirmed" Env.sample.writeTime :: post :=
  updateOrder_valid_status Platform.plain Env.sample Env.sample [raviOrder, ashaOrder] ashaId 7
    ashaOrder confirmedBody "confirmed" (by decide) (by decide) rfl (by decide) rfl rfl

/-! ## An id that matches no order -/

/-- C7, counterexample to the claim as stated.  A PUT with a well-formed id that matches no stored order
and the status `shipped` is answered 500, not 404: the update is validated before the
lookup. -/
theorem updateOrder_unknown_id_invalid_status_500 :
    castObjectId Platform.plain ashaId = some 7 ∧ findById [raviOrder] 7 = none ∧
      (updateOrder Platform.plain Env.sample [raviOrder] ashaId shippedBody).1.status = 500 := by
  decide

/-- C7, amended.  For every store and every well-formed id that matches no stored
order, when the database call succeeds each of `getOrder`, `deleteOrder` and
`updateOrderStatus` with a status of the enum (such as `confirmed`) answers 404 with the
body exactly `{ success: false, message: 'Order not found' }` and leaves the store
unchanged. -/
theorem unknown_id_404 (P : Platform) (e : Env) (s : Store) (id : String) (oid : ObjectId)
    (body : JObject) (t : String)
    (hid : castObjectId P id = some oid) (hno : ∀ d ∈ s, d._id ≠ oid)
    (hbody : body.get "status" = some (.str t)) (ht : t ∈ statusEnum)
    (hup : e.fault = none) :
    getOrder P e s id =
        ({ status := 404,
           body := [("success", .bool false), ("message", .str "Order not found")] }, s) ∧
      updateOrder P e s id body =
        ({ status := 404,
           body := [("success", .bool false), ("message", .str "Order not found")] }, s) ∧
      deleteOrder P e s id =
        ({ status := 404,
           body := [("success", .bool false), ("message", .str "Order not found")] }, s) := by
  have hfind : findById s oid = none := findById_none.2 hno
  refine ⟨?_, ?_, ?_⟩
  · simp [getOrder, hid, hup, hfind, orderNotFound]
  · simp [updateOrder, hid, hbody, statusUpdate_enum P ht, hup, hfind, orderNotFound]
  · simp [deleteOrder, hid, hup, hfind, orderNotFound]

theorem unknown_id_404_witness :
    getOrder Platform.plain Env.sample [raviOrder] ashaId =
        ({ status := 404,
           body := [("success", .bool false), ("message", .str "Order not found")] },
          [raviOrder]) ∧
      updateOrder Platform.plain Env.sample [raviOrder] ashaId confirmedBody =
        ({ status := 404,
           body := [("success", .bool false), ("message", .str "Order not found")] },
          [raviOrder]) ∧
      deleteOrder Platform.plain Env.sample [raviOrder] ashaId =
        ({ status := 404,
           body := [("success", .bool false), ("message", .str "Order not found")] },
          [raviOrder]) :=
  unknown_id_404 Platform.plain Env.sample [raviOrder] ashaId 7 confirmedBody "confirmed"
    (by decide) (by decide) rfl (by decide) rfl

/-! ## Delete -/

/-- C8.  For every store whose ids are distinct and every id of a stored order `d`,
when the database call succeeds `deleteOrder` answers 200 with `success: true` and removes
`d` alone: a `getOrder` of the id afterwards answers 404, and the orders then stored are
exactly the other orders, unchanged and in their order. -/
theorem deleteOrder_removes (P : Platform) (e e' : Env) (s : Store) (id : String)
    (oid : ObjectId) (d : OrderDoc)
    (hid : castObjectId P id = some oid) (hd : findById s oid = some d)
    (hnodup : (s.map fun x => x._id).Nodup)
    (hup : e.fault = none) (hup' : e'.fault = none) :
    (deleteOrder P e s id).1 =
        { status := 200,
          body := [("success", .bool true), ("message", .str "Order deleted successfully")] } ∧
      (getOrder P e' (deleteOrder P e s id).2 id).1 =
        { status := 404,
          body := [("success", .bool false), ("message", .str "Order not found")] } ∧
      (∀ x, x ∈ (deleteOrder P e s id).2 ↔ x ∈ s ∧ x._id ≠ oid) ∧
      ∃ pre post, s = pre ++ d :: post ∧ (deleteOrder P e s id).2 = pre ++ post := by
  have h : deleteOrder P e s id =
      ({ status := 200,
         body := [("success", .bool true), ("message", .str "Order deleted successfully")] },
        s.eraseP fun x => x._id = oid) := by
    simp [deleteOrder, hid, hup, hd]
  obtain ⟨pre, post, h1, h2, -, h4⟩ := findById_split hd d
  have hdoid : d._id = oid := (findById_some hd).2
  have hpost : ∀ x ∈ post, x._id ≠ oid := by
    intro x hx hxo
    rw [h1, List.map_append, List.map_cons, List.nodup_append] at hnodup
    have hn := (List.nodup_cons.1 hnodup.2.1).1
    exact hn (List.mem_map.2 ⟨x, hx, by rw [hxo, hdoid]⟩)
  have hmem : ∀ x, x ∈ (deleteOrder P e s id).2 ↔ x ∈ s ∧ x._id ≠ oid := by
    intro x
    rw [h]
    simp only [h4]
    rw [h1]
    simp only [List.mem_append, List.mem_cons]
    constructor
    · rintro (hx | hx)
      · exact ⟨Or.inl hx, h2 x hx⟩
      · exact ⟨Or.inr (Or.inr hx), hpost x hx⟩
    · rintro ⟨hx | rfl | hx, hne⟩
      · exact Or.inl hx
      · exact absurd hdoid hne
      · exact Or.inr hx
  refine ⟨by rw [h], ?_, hmem, pre, post, h1, by rw [h]; exact h4⟩
  have hnone : findById (deleteOrder P e s id).2 oid = none :=
    findById_none.2 fun x hx => ((hmem x).1 hx).2
  simp [getOrder, hid, hup', hnone, orderNotFound]

theorem deleteOrder_removes_witness :
    (deleteOrder Platform.plain Env.sample [raviOrder, ashaOrder] ashaId).1 =
        { status := 200,
          body := [("success", .bool true), ("message", .str "Order deleted successfully")] } ∧
      (getOrder Platform.plain Env.sample
        (deleteOrder Platform.plain Env.sample [raviOrder, ashaOrder] ashaId).2 ashaId).1 =
        { status := 404,
          body := [("success", .bool false), ("message", .str "Order not found")] } ∧
      (∀ x, x ∈ (deleteOrder Platform.plain Env.sample [raviOrder, ashaOrder] ashaId).2 ↔
        x ∈ [raviOrder, ashaOrder] ∧ x._id ≠ 7) ∧
      ∃ pre post, [raviOrder, ashaOrder] = pre ++ ashaOrder :: post ∧
        (deleteOrder Platform.plain Env.sample [raviOrder, ashaOrder] ashaId).2 = pre ++ post :=
  deleteOrder_removes Platform.plain Env.sample Env.sample [raviOrder, ashaOrder] ashaId 7
    ashaOrder (by decide) (by decide) (by decide) rfl rfl

/-! ## List -/

theorem sublist_pair_of_sorted {l : List OrderDoc} (hl : l.Sorted newestFirst)
    {a b : OrderDoc} (ha : a ∈ l) (hb : b ∈ l) (hlt : a.createdAt < b.createdAt) :
    [b, a].Sublist l := by
  induction l with
  | nil => simp at ha
  | cons x xs ih =>
    have hx : ∀ y ∈ xs, newestFirst x y := (List.sorted_cons.1 hl).1
    rcases List.mem_cons.1 ha with rfl | ha'
    · rcases List.mem_cons.1 hb with rfl | hb'
      · exact absurd hlt (lt_irrefl _)
      · exact absurd (hx b hb') (by simp [newestFirst, hlt])
    · rcases List.mem_cons.1 hb with rfl | hb'
      · exact List.Sublist.cons₂ _ (List.singleton_sublist.2 ha')
      · exact List.Sublist.cons _ (ih (List.sorted_cons.1 hl).2 ha' hb')

/-- C6.  For every store, when the database call succeeds `listOrders` answers 200
with `success: true`, a list `orders` that is a permutation of the stored orders sorted by
non-increasing `createdAt` (so an order created later than another comes before it), and
`count` equal to the length of that list; the store is unchanged. -/
theorem listOrders_sorted (P : Platform) (e : Env) (s : Store) (hup : e.fault = none) :
    ∃ orders : List OrderDoc,
      listOrders P e s =
          ({ status := 200,
             body := [("success", .bool true), ("count", .num orders.length),
                      ("orders", .orders orders)] }, s) ∧
        orders.Perm s ∧ orders.Sorted newestFirst ∧
        ∀ a b, a ∈ s → b ∈ s → a.createdAt < b.createdAt → [b, a].Sublist orders := by
  refine ⟨s.insertionSort newestFirst, ?_, List.perm_insertionSort _ _,
    List.sorted_insertionSort _ _, ?_⟩
  · simp [listOrders, hup]
  · intro a b ha hb hlt
    exact sublist_pair_of_sorted (List.sorted_insertionSort _ _)
      ((List.perm_insertionSort newestFirst s).mem_iff.2 ha)
      ((List.perm_insertionSort newestFirst s).mem_iff.2 hb) hlt

theorem listOrders_sorted_witness :
    ∃ orders : List OrderDoc,
      listOrders Platform.plain Env.sample [ashaOrder, raviOrder] =
          ({ status := 200,
             body := [("success", .bool true), ("count", .num orders.length),
                      ("orders", .orders orders)] }, [ashaOrder, raviOrder]) ∧
        orders.Perm [ashaOrder, raviOrder] ∧ orders.Sorted newestFirst ∧
        ∀ a b, a ∈ [ashaOrder, raviOrder] → b ∈ [ashaOrder, raviOrder] →
          a.createdAt < b.createdAt → [b, a].Sublist orders :=
  listOrders_sorted Platform.plain Env.sample [ashaOrder, raviOrder] rfl

/-! ## The invariant of the collection -/

theorem dropWhile_rdropWhile (p : Char → Bool) (m : List Char) (hm : m.dropWhile p = m) :
    (m.rdropWhile p).dropWhile p = m.rdropWhile p := by
  obtain ⟨t, ht⟩ := List.rdropWhile_prefix p (l := m)
  generalize List.rdropWhile p m = r at ht ⊢
  cases r with
  | nil => rfl
  | cons a r =>
    subst ht
    by_cases hp : p a = true
    · have hlen := congrArg List.length hm
      have hle := (List.dropWhile_suffix p (l := r ++ t)).length_le
      simp only [List.cons_append, List.dropWhile_cons, hp, if_true, List.length_cons] at hlen
      omega
    · simp [List.dropWhile_cons, hp]

theorem jsTrim_idem (t : String) : jsTrim (jsTrim t) = jsTrim t := by
  have h1 := dropWhile_rdropWhile jsWhiteSpace (t.data.dropWhile jsWhiteSpace)
    (List.dropWhile_idempotent jsWhiteSpace t.data)
  show String.mk (List.rdropWhile jsWhiteSpace (List.dropWhile jsWhiteSpace
      (List.rdropWhile jsWhiteSpace (t.data.dropWhile jsWhiteSpace)))) =
    String.mk (List.rdropWhile jsWhiteSpace (t.data.dropWhile jsWhiteSpace))
  rw [h1, List.rdropWhile_idempotent]

theorem castText_trimmed {P : Platform} {v : Option JVal} {t : String}
    (h : castText P v = .value t) : jsTrim t = t := by
  unfold castText at h
  split at h
  · cases h
  · cases h
  · cases h
    exact jsTrim_idem _
  · split at h
    · cases h
      exact jsTrim_idem _
    · cases h

theorem validText_trimmed {P : Platform} {v : Option JVal} {t : String}
    (h : validText (castText P v) = some t) : Trimmed t := by
  cases hc : castText P v with
  | value a =>
    rw [hc] at h
    by_cases ha : a = ""
    · simp [validText, ha] at h
    · simp only [validText, ha, if_false, Option.some.injEq] at h
      subst h
      exact ⟨ha, castText_trimmed hc⟩
  | nullish => simp [hc, validText] at h
  | error => simp [hc, validText] at h

theorem validQuantity_ge1 {c : Cast JSNum} {n : JSNum} (h : validQuantity c = some n) :
    n.ge1 = true := by
  cases c with
  | value a =>
    by_cases ha : a.ge1 = true
    · simp only [validQuantity, ha, if_true, Option.some.injEq] at h
      exact h ▸ ha
    · simp [validQuantity, ha] at h
  | nullish => simp [validQuantity] at h
  | error => simp [validQuantity] at h

theorem pending_mem_statusEnum : "pending" ∈ statusEnum := by decide

theorem newOrder_valid {P : Platform} {e : Env} {cn mn fi ad : Option JVal} {q : JSNum}
    {d : OrderDoc} (h : newOrder P e cn mn fi q ad = .ok d) :
    d.Valid ∧ d._id = e.newId ∧ d.StatusOk := by
  unfold newOrder at h
  simp only at h
  split at h
  · rename_i a b c n x h1 h2 h3 h4 h5
    cases h
    exact ⟨⟨validQuantity_ge1 h4, validText_trimmed h1, validText_trimmed h2,
      validText_trimmed h3, validText_trimmed h5⟩, rfl, "pending", pending_mem_statusEnum, rfl⟩
  · cases h

theorem insert_ok {e : Env} {s s' : Store} {d : OrderDoc} (h : insert e s d = .ok s') :
    s' = s ++ [d] ∧ ∀ x ∈ s, x._id ≠ d._id := by
  unfold insert at h
  split at h
  · cases h
  · split at h
    · cases h
    · rename_i hany
      cases h
      refine ⟨rfl, ?_⟩
      intro x hx hxd
      exact hany (List.any_eq_true.2 ⟨x, hx, by simpa using hxd⟩)

theorem insert_inv {e : Env} {s s' : Store} {d : OrderDoc} (hs : StoreInv s) (hd : d.Valid)
    (h : insert e s d = .ok s') : StoreInv s' := by
  obtain ⟨rfl, hnot⟩ := insert_ok h
  refine ⟨?_, ?_⟩
  · rw [List.map_append, List.nodup_append]
    refine ⟨hs.1, by simp, ?_⟩
    intro a ha hb
    simp only [List.map_cons, List.map_nil, List.mem_singleton] at hb
    obtain ⟨x, hx, hxa⟩ := List.mem_map.1 ha
    exact hnot x hx (hxa.trans hb)
  · intro x hx
    rcases List.mem_append.1 hx with hx | hx
    · exact hs.2 x hx
    · rw [List.mem_singleton.1 hx]
      exact hd

theorem createOrder_inv (P : Platform) (e : Env) (s : Store) (body : JObject)
    (hs : StoreInv s) : StoreInv (createOrder P e s body).2 := by
  unfold createOrder
  simp only
  split
  · exact hs
  · split
    · exact hs
    · rename_i order hnew
      split
      · exact hs
      · rename_i s' hins
        exact insert_inv hs (newOrder_valid hnew).1 hins

theorem createOrder_statusOk (P : Platform) (e : Env) (s : Store) (body : JObject)
    (hs : ∀ d ∈ s, d.StatusOk) : ∀ d ∈ (createOrder P e s body).2, d.StatusOk := by
  unfold createOrder
  simp only
  split
  · exact hs
  · split
    · exact hs
    · rename_i order hnew
      split
      · exact hs
      · rename_i s' hins
        obtain ⟨rfl, -⟩ := insert_ok hins
        intro d hd
        rcases List.mem_append.1 hd with hd | hd
        · exact hs d hd
        · rw [List.mem_singleton.1 hd]
          exact (newOrder_valid hnew).2.2

theorem replaceById_map_id {oid : ObjectId} {d : OrderDoc} (hd : d._id = oid) (s : Store) :
    (replaceById oid d s).map (fun x => x._id) = s.map fun x => x._id := by
  induction s with
  | nil => rfl
  | cons x xs ih =>
    by_cases hx : x._id = oid
    · simp [replaceById, hx, hd]
    · simp [replaceById, hx, ih]

theorem mem_replaceById {oid : ObjectId} {d x : OrderDoc} {s : Store}
    (h : x ∈ replaceById oid d s) : x = d ∨ x ∈ s := by
  induction s with
  | nil => simp [replaceById] at h
  | cons y ys ih =>
    by_cases hy : y._id = oid
    · simp only [replaceById, hy, if_true, List.mem_cons] at h
      rcases h with h | h
      · exact Or.inl h
      · exact Or.inr (List.mem_cons_of_mem _ h)
    · simp only [replaceById, hy, if_false, List.mem_cons] at h
      rcases h with h | h
      · exact Or.inr (h ▸ List.mem_cons_self _ _)
      · rcases ih h with h | h
        · exact Or.inl h
        · exact Or.inr (List.mem_cons_of_mem _ h)

theorem statusUpdate_text {P : Platform} {t : String} {change : Option (Option String)}
    (h : statusUpdate P (some (.str t)) = .ok change) : t ∈ statusEnum ∧ change = some (some t) := by
  by_cases ht : t ∈ statusEnum
  · rw [statusUpdate_enum P ht] at h
    cases h
    exact ⟨ht, rfl⟩
  · rw [statusUpdate_not_enum P ht] at h
    cases h

theorem updateOrder_inv (P : Platform) (e : Env) (s : Store) (id : String) (body : JObject)
    (hs : StoreInv s) : StoreInv (updateOrder P e s id body).2 := by
  unfold updateOrder
  simp only
  split
  · exact hs
  · rename_i oid _
    split
    · exact hs
    · split
      · exact hs
      · split
        · exact hs
        · rename_i d hd
          have hmem := findById_some hd
          refine ⟨?_, ?_⟩
          · rw [replaceById_map_id (by exact hmem.2)]
            exact hs.1
          · intro x hx
            rcases mem_replaceById hx with hx | hx
            · rw [hx]
              exact hs.2 d hmem.1
            · exact hs.2 x hx

theorem updateOrder_statusOk (P : Platform) (e : Env) (s : Store) (id : String)
    (body : JObject) (t : String) (hbody : body.get "status" = some (.str t))
    (hs : ∀ d ∈ s, d.StatusOk) : ∀ d ∈ (updateOrder P e s id body).2, d.StatusOk := by
  unfold updateOrder
  simp only [hbody]
  split
  · exact hs
  · split
    · exact hs
    · rename_i change hchange
      obtain ⟨ht, rfl⟩ := statusUpdate_text hchange
      split
      · exact hs
      · split
        · exact hs
        · intro x hx
          rcases mem_replaceById hx with hx | hx
          · rw [hx]
            exact ⟨t, ht, rfl⟩
          · exact hs x hx

theorem deleteOrder_inv (P : Platform) (e : Env) (s : Store) (id : String)
    (hs : StoreInv s) : StoreInv (deleteOrder P e s id).2 := by
  unfold deleteOrder
  split
  · exact hs
  · split
    · exact hs
    · split
      · exact hs
      · exact ⟨hs.1.sublist ((List.eraseP_sublist s).map _),
          fun x hx => hs.2 x (List.mem_of_mem_eraseP hx)⟩

theorem deleteOrder_statusOk (P : Platform) (e : Env) (s : Store) (id : String)
    (hs : ∀ d ∈ s, d.StatusOk) : ∀ d ∈ (deleteOrder P e s id).2, d.StatusOk := by
  unfold deleteOrder
  split
  · exact hs
  · split
    · exact hs
    · split
      · exact hs
      · exact fun x hx => hs x (List.mem_of_mem_eraseP hx)

theorem listOrders_store (P : Platform) (e : Env) (s : Store) : (listOrders P e s).2 = s := by
  unfold listOrders
  split <;> rfl

theorem getOrder_store (P : Platform) (e : Env) (s : Store) (id : String) :
    (getOrder P e s id).2 = s := by
  unfold getOrder
  split
  · rfl
  · split
    · rfl
    · split <;> rfl

theorem dispatch_inv (P : Platform) (e : Env) (s : Store) (m : Method) (path : List String)
    (body : JObject) (hs : StoreInv s) : StoreInv (dispatch P e s m path body).2 := by
  unfold dispatch
  split
  · split <;> exact hs
  · split
    · exact createOrder_inv P e s body hs
    · rw [listOrders_store]; exact hs
    · rw [listOrders_store]; exact hs
    · exact hs
  · split
    · exact hs
    · split
      · rw [getOrder_store]; exact hs
      · rw [getOrder_store]; exact hs
      · exact updateOrder_inv P e s _ body hs
      · exact deleteOrder_inv P e s _ hs
      · exact hs
  · exact hs

theorem dispatch_statusOk (P : Platform) (e : Env) (s : Store) (m : Method)
    (path : List String) (body : JObject)
    (hput : m = .PUT → ∃ t, body.get "status" = some (.str t))
    (hs : ∀ d ∈ s, d.StatusOk) : ∀ d ∈ (dispatch P e s m path body).2, d.StatusOk := by
  unfold dispatch
  split
  · split <;> exact hs
  · split
    · exact createOrder_statusOk P e s body hs
    · rw [listOrders_store]; exact hs
    · rw [listOrders_store]; exact hs
    · exact hs
  · split
    · exact hs
    · split
      · rw [getOrder_store]; exact hs
      · rw [getOrder_store]; exact hs
      · obtain ⟨t, ht⟩ := hput rfl
        exact updateOrder_statusOk P e s _ body t ht hs
      · exact deleteOrder_statusOk P e s _ hs
      · exact hs
  · exact hs

theorem handle_inv (P : Platform) (e : Env) (s : Store) (req : Request) (hs : StoreInv s) :
    StoreInv (handle P e s req).2 := by
  unfold handle
  split
  · exact hs
  · simp only
    split
    · exact hs
    · exact dispatch_inv P e s _ _ _ hs

theorem textStatus_put {req : Request} {body : JObject} (h : req.textStatus = true)
    (hb : req.body = .ok body) (hm : req.method = .PUT) :
    ∃ t, body.get "status" = some (.str t) := by
  unfold Request.textStatus at h
  rw [hm, hb] at h
  simp only at h
  split at h
  · rename_i t ht
    exact ⟨t, ht⟩
  · cases h

theorem handle_statusOk (P : Platform) (e : Env) (s : Store) (req : Request)
    (htext : req.textStatus = true) (hs : ∀ d ∈ s, d.StatusOk) :
    ∀ d ∈ (handle P e s req).2, d.StatusOk := by
  unfold handle
  split
  · exact hs
  · simp only
    split
    · exact hs
    · rename_i body hb
      exact dispatch_statusOk P e s _ _ _ (fun hm => textStatus_put htext hb hm) hs

theorem reachable_inv {P : Platform} {b : Bool} {s : Store} (h : Reachable P b s) :
    StoreInv s := by
  induction h with
  | empty => exact ⟨List.nodup_nil, fun d hd => absurd hd (List.not_mem_nil d)⟩
  | step e req _ ih => exact handle_inv P e _ req ih

theorem reachable_statusOk {P : Platform} {b : Bool} {s : Store} (h : Reachable P b s) :
    b = true → ∀ d ∈ s, d.StatusOk := by
  induction h with
  | empty => exact fun _ d hd => absurd hd (List.not_mem_nil d)
  | step e req _ ih =>
    intro hb
    rw [Bool.and_eq_true] at hb
    exact handle_statusOk P e _ req hb.2 (ih hb.1)

theorem Reachable.step_eq {P : Platform} {b b' : Bool} {s s' : Store} (e : Env)
    (req : Request) (h : Reachable P b s) (hb : (b && req.textStatus) = b')
    (hs : (handle P e s req).2 = s') : Reachable P b' s' :=
  hb ▸ hs ▸ Reachable.step e req h

/-- C9, counterexample to the claim as stated.  The request `POST /api/orders` with the
quantity 1.5 on the empty store leaves a stored order whose quantity is not an integer. -/
theorem reachable_fractional_quantity :
    (handle Platform.plain Env.sample [] (postOrders halfBody)).2 = [halfOrder] ∧
      Reachable Platform.plain true [halfOrder] ∧ halfOrder.quantity = .fin threeHalves ∧
      threeHalves.num = 3 ∧ threeHalves.den = 2 ∧ halfOrder.quantity.isInteger = false :=
  ⟨by decide,
    Reachable.step_eq Env.sample (postOrders halfBody) Reachable.empty (by decide) (by decide),
    rfl, rfl, rfl, by decide⟩

/-- C9, amended.  In every store reachable from the empty store by any sequence of
requests with arbitrary bodies, the stored orders have distinct ids, and every stored
order has a quantity that is a number at least 1 (not necessarily an integer) and a
`customerName`, `mobileNumber`, `foodItem` and `address` that are non-empty and free of
leading and trailing white space; and when every `PUT` of the sequence carried a string as
its status (the flag `b`), every stored order has a status that is one of `pending`,
`confirmed`, `preparing`, `delivered`, `cancelled`.  What a `PUT` whose status is `null`,
absent or not a string leaves as the status is not stated. -/
theorem reachable_invariant (P : Platform) (b : Bool) (s : Store) (h : Reachable P b s) :
    (s.map fun d => d._id).Nodup ∧
      ∀ d ∈ s, d.quantity.ge1 = true ∧
        (d.customerName ≠ "" ∧ jsTrim d.customerName = d.customerName) ∧
        (d.mobileNumber ≠ "" ∧ jsTrim d.mobileNumber = d.mobileNumber) ∧
        (d.foodItem ≠ "" ∧ jsTrim d.foodItem = d.foodItem) ∧
        (d.address ≠ "" ∧ jsTrim d.address = d.address) ∧
        (b = true → ∃ t ∈ statusEnum, d.status = some t) :=
  ⟨(reachable_inv h).1, fun d hd =>
    ⟨((reachable_inv h).2 d hd).1, ((reachable_inv h).2 d hd).2.1,
      ((reachable_inv h).2 d hd).2.2.1, ((reachable_inv h).2 d hd).2.2.2.1,
      ((reachable_inv h).2 d hd).2.2.2.2, fun hb => reachable_statusOk h hb d hd⟩⟩

theorem reachable_invariant_witness :
    ([halfOrder.withStatus "confirmed" 1001].map fun d => d._id).Nodup ∧
      ∀ d ∈ [halfOrder.withStatus "confirmed" 1001], d.quantity.ge1 = true ∧
        (d.customerName ≠ "" ∧ jsTrim d.customerName = d.customerName) ∧
        (d.mobileNumber ≠ "" ∧ jsTrim d.mobileNumber = d.mobileNumber) ∧
        (d.foodItem ≠ "" ∧ jsTrim d.foodItem = d.foodItem) ∧
        (d.address ≠ "" ∧ jsTrim d.address = d.address) ∧
        (true = true → ∃ t ∈ statusEnum, d.status = some t) :=
  reachable_invariant Platform.plain true [halfOrder.withStatus "confirmed" 1001]
    (Reachable.step_eq Env.sample (putOrder ashaId confirmedBody)
      (show Reachable Platform.plain true [halfOrder] from
        Reachable.step_eq Env.sample (postOrders halfBody) Reachable.empty (by decide)
          (by decide))
      (by decide) (by decide))

/-! ## The shape of the responses -/

theorem failure_shaped (P : Platform) (m : String) (err : StoreError) :
    Shaped (failure P m err).status (failure P m err).body :=
  ⟨⟨false, by simp [failure, List.lookup]⟩, fun _ => ⟨m, P.message err, by simp [failure, List.lookup]⟩⟩

theorem errorHandler_shaped (detail : String) :
    Shaped (errorHandler detail).status (errorHandler detail).body :=
  ⟨⟨false, by simp [errorHandler, List.lookup]⟩,
    fun _ => ⟨"Something went wrong!", detail, by simp [errorHandler, List.lookup]⟩⟩

theorem routeNotFound_shaped : Shaped routeNotFound.status routeNotFound.body :=
  ⟨⟨false, by simp [routeNotFound, List.lookup]⟩, fun h => by simp [routeNotFound] at h⟩

theorem orderNotFound_shaped : Shaped orderNotFound.status orderNotFound.body :=
  ⟨⟨false, by simp [orderNotFound, List.lookup]⟩, fun h => by simp [orderNotFound] at h⟩

theorem createOrder_shaped (P : Platform) (e : Env) (s : Store) (body : JObject) :
    Shaped (createOrder P e s body).1.status (createOrder P e s body).1.body := by
  unfold createOrder
  simp only
  split
  · exact ⟨⟨false, by simp [List.lookup]⟩, fun h => by simp at h⟩
  · split
    · exact failure_shaped P _ _
    · split
      · exact failure_shaped P _ _
      · exact ⟨⟨true, by simp [List.lookup]⟩, fun h => by simp at h⟩

theorem listOrders_shaped (P : Platform) (e : Env) (s : Store) :
    Shaped (listOrders P e s).1.status (listOrders P e s).1.body := by
  unfold listOrders
  split
  · exact failure_shaped P _ _
  · exact ⟨⟨true, by simp [List.lookup]⟩, fun h => by simp at h⟩

theorem getOrder_shaped (P : Platform) (e : Env) (s : Store) (id : String) :
    Shaped (getOrder P e s id).1.status (getOrder P e s id).1.body := by
  unfold getOrder
  split
  · exact failure_shaped P _ _
  · split
    · exact failure_shaped P _ _
    · split
      · exact orderNotFound_shaped
      · exact ⟨⟨true, by simp [List.lookup]⟩, fun h => by simp at h⟩

theorem updateOrder_shaped (P : Platform) (e : Env) (s : Store) (id : String)
    (body : JObject) :
    Shaped (updateOrder P e s id body).1.status (updateOrder P e s id body).1.body := by
  unfold updateOrder
  simp only
  split
  · exact failure_shaped P _ _
  · split
    · exact failure_shaped P _ _
    · split
      · exact failure_shaped P _ _
      · split
        · exact orderNotFound_shaped
        · exact ⟨⟨true, by simp [List.lookup]⟩, fun h => by simp at h⟩

theorem deleteOrder_shaped (P : Platform) (e : Env) (s : Store) (id : String) :
    Shaped (deleteOrder P e s id).1.status (deleteOrder P e s id).1.body := by
  unfold deleteOrder
  split
  · exact failure_shaped P _ _
  · split
    · exact failure_shaped P _ _
    · split
      · exact orderNotFound_shaped
      · exact ⟨⟨true, by simp [List.lookup]⟩, fun h => by simp at h⟩

theorem route_root {path : List String} (h : route path = .root) : path = [""] := by
  unfold route at h
  split at h
  · rfl
  · split at h <;> cases h
  · split at h
    · split at h <;> cases h
    · cases h
  · split at h <;> cases h
  · cases h

theorem dispatch_shaped (P : Platform) (e : Env) (s : Store) (m : Method) (path : List String)
    (body : JObject) (hroot : ¬(m = .GET ∧ path = [""])) (hhead : m ≠ .HEAD) :
    Shaped (dispatch P e s m path body).1.status (dispatch P e s m path body).1.body := by
  unfold dispatch
  split
  · rename_i hr
    split
    · exact absurd ⟨rfl, route_root hr⟩ hroot
    · exact absurd rfl hhead
    · exact routeNotFound_shaped
  · split
    · exact createOrder_shaped P e s body
    · exact listOrders_shaped P e s
    · exact listOrders_shaped P e s
    · exact routeNotFound_shaped
  · split
    · exact errorHandler_shaped _
    · split
      · exact getOrder_shaped P e s _
      · exact getOrder_shaped P e s _
      · exact updateOrder_shaped P e s _ body
      · exact deleteOrder_shaped P e s _
      · exact routeNotFound_shaped
  · exact routeNotFound_shaped

/-- C10, counterexample to the claim as stated.  The body of the answer to `GET /` is
`{ message: 'Restaurant Backend API is running!' }`: it has no `success` field. -/
theorem root_response_without_success :
    (handle Platform.plain Env.sample [] getRoot).1 =
        { status := 200,
          body := some [("message", .str "Restaurant Backend API is running!")] } ∧
      List.lookup "success" [("message", Field.str "Restaurant Backend API is running!")] =
        none := by
  decide

/-- C10, amended.  For every request other than `GET /` (any method, any path, any
body, any outcome of the store including a failure), the JSON body the service sends, if
it sends one, includes a boolean field named `success`; and when the status is 500 the
body also has a `message` string and an `error` detail string. -/
theorem response_shape (P : Platform) (e : Env) (s : Store) (req : Request)
    (hroot : ¬(req.method = .GET ∧ req.path = [""])) :
    (handle P e s req).1.body = none ∨
      ∃ body, (handle P e s req).1.body = some body ∧
        (∃ b, body.lookup "success" = some (.bool b)) ∧
        ((handle P e s req).1.status = 500 →
          ∃ m detail, body.lookup "message" = some (.str m) ∧
            body.lookup "error" = some (.str detail)) := by
  unfold handle
  split
  · exact Or.inl rfl
  · simp only
    by_cases hhead : req.method = .HEAD
    · exact Or.inl (by simp [hhead])
    · simp only [hhead, if_false]
      refine Or.inr ⟨_, rfl, ?_⟩
      split
      · exact errorHandler_shaped _
      · exact dispatch_shaped P e s _ _ _ hroot hhead

theorem response_shape_witness :
    (handle Platform.plain Env.sample [] (getOrderRequest "abc")).1.body = none ∨
      ∃ body, (handle Platform.plain Env.sample [] (getOrderRequest "abc")).1.body = some body ∧
        (∃ b, body.lookup "success" = some (.bool b)) ∧
        ((handle Platform.plain Env.sample [] (getOrderRequest "abc")).1.status = 500 →
          ∃ m detail, body.lookup "message" = some (.str m) ∧
            body.lookup "error" = some (.str detail)) :=
  response_shape Platform.plain Env.sample [] (getOrderRequest "abc") (by decide)

end Restaurant
